import Mathlib

/-!
Shallow embedding of `src/main.py` (QQQ momentum signal script).

The script is a single linear flow: check the trading window, fetch a
quote and daily history from the market-data API, compute the 200-day
simple moving average, evaluate a buy-dip or sell-stop rule depending on
the mode flag, and on a trigger POST a JSON payload to a webhook.

Prices are modelled as rationals.  Network effects are modelled by an
explicit trace of events (`NetEvent`), console output by a list of
strings, and the external world (API responses, webhook outcome, clock)
by an `Env` record, so every function of the script becomes a pure Lean
function from the environment to its trace and output.
-/

namespace QQQMomentum

/-- `SYMBOL = 'QQQ'` from the configuration block. -/
def SYMBOL : String := "QQQ"

/-- A wall-clock instant in US/Eastern, as `datetime.now(EST)` exposes it:
weekday (Monday = 0 .. Sunday = 6) and time of day. -/
structure WorldTime where
  weekday : Nat
  hour : Nat
  minute : Nat
  second : Nat
  microsecond : Nat
deriving Repr, DecidableEq

/-- Microseconds since midnight for a given hour/minute/second/microsecond;
comparing two same-day aware datetimes compares these. -/
def timeMicros (h m s us : Nat) : Nat :=
  ((h * 60 + m) * 60 + s) * 1000000 + us

/-- Time of day of `now`, in microseconds since midnight. -/
def nowMicros (t : WorldTime) : Nat :=
  timeMicros t.hour t.minute t.second t.microsecond

/-- `now.replace(hour=9, minute=30, second=0, microsecond=0)` as a time of day. -/
def marketOpenMicros : Nat := timeMicros 9 30 0 0

/-- `now.replace(hour=16, minute=0, second=0, microsecond=0)` as a time of day. -/
def marketCloseMicros : Nat := timeMicros 16 0 0 0

/-- `is_market_open` from `src/main.py`: weekend days are rejected with a
message, then the current time is compared against the 09:30-16:00 window
(inclusive on both ends).  Returns the boolean result together with the
lines the function prints. -/
def is_market_open (t : WorldTime) : Bool × List String :=
  if t.weekday > 4 then
    (false, ["Market Closed (Weekend)."])
  else if marketOpenMicros ≤ nowMicros t ∧ nowMicros t ≤ marketCloseMicros then
    (true, [])
  else
    (false, ["Market Closed (Outside Hours)."])

/-- The fields of the quote JSON that the script reads:
`quote_data['last']`, `quote_data['open']`, `quote_data['prevclose']`.
The open price may be `null` (`None`), hence `Option`. -/
structure Quote where
  last : ℚ
  openPrice : Option ℚ
  prevclose : ℚ
deriving Repr, DecidableEq

/-- The JSON payload built by `trigger_webhook`: always ticker, signal,
price, sma200 and timestamp; the `open_price` key is present (`some`)
only when the open price argument is truthy. -/
structure Payload where
  ticker : String
  signal : String
  price : ℚ
  sma200 : ℚ
  timestamp : String
  open_price : Option ℚ
deriving Repr, DecidableEq

/-- One observable network call of the script. -/
inductive NetEvent
  | quoteGet
  | historyGet
  | webhookPost (url : String) (payload : Payload)
deriving Repr, DecidableEq

/-- The external world as the script sees it: the outcome of the quote GET
(fetch plus JSON parsing), the outcome of the history GET (fetch plus
parsing, yielding the daily closes in provider order), and the outcome of
a webhook POST (`requests.post` followed by `raise_for_status`). -/
structure Provider where
  quoteResult : Except String Quote
  historyResult : Except String (List ℚ)
  postResult : String → Payload → Except String Unit

/-- `Series.tail(n)` of pandas: the last `min n (length xs)` entries. -/
def pandasTail (n : Nat) (xs : List ℚ) : List ℚ :=
  xs.drop (xs.length - n)

/-- `Series.mean()` of pandas on a nonempty series: sum divided by count. -/
def pandasMean (xs : List ℚ) : ℚ :=
  xs.sum / (xs.length : ℚ)

/-- `df['close'].tail(200).mean()` from `get_market_data`. -/
def sma200Of (closes : List ℚ) : ℚ :=
  pandasMean (pandasTail 200 closes)

/-- `get_market_data` from `src/main.py`: performs the quote GET, raising
(propagating `Except.error`) on failure; then the history GET, likewise;
on success returns `(current_price, open_price, prev_close, sma_200)`.
The first component is the trace of network calls performed. -/
def get_market_data (p : Provider) :
    List NetEvent × Except String (ℚ × Option ℚ × ℚ × ℚ) :=
  match p.quoteResult with
  | Except.error e => ([NetEvent.quoteGet], Except.error e)
  | Except.ok q =>
    match p.historyResult with
    | Except.error e => ([NetEvent.quoteGet, NetEvent.historyGet], Except.error e)
    | Except.ok closes =>
      ([NetEvent.quoteGet, NetEvent.historyGet],
       Except.ok (q.last, q.openPrice, q.prevclose, sma200Of closes))

/-- Python truthiness of the optional open price: `None` and `0` are falsy. -/
def pyTruthy : Option ℚ → Bool
  | none => false
  | some x => decide (x ≠ 0)

/-- The payload dictionary built at the top of `trigger_webhook`: the five
mandatory keys, and `open_price` added only under `if open_p:`. -/
def mkPayload (signal_type : String) (price sma : ℚ) (ts : String)
    (open_p : Option ℚ) : Payload :=
  { ticker := SYMBOL
    signal := signal_type
    price := price
    sma200 := sma
    timestamp := ts
    open_price := if pyTruthy open_p then open_p else none }

/-- `trigger_webhook` from `src/main.py`: builds the payload, prints it,
POSTs it, and catches any POST/status failure, printing a failure line
instead of propagating.  Returns the network trace and the printed lines. -/
def trigger_webhook (post : String → Payload → Except String Unit)
    (url : String) (signal_type : String) (price sma : ℚ) (ts : String)
    (open_p : Option ℚ) : List NetEvent × List String :=
  let payload := mkPayload signal_type price sma ts open_p
  match post url payload with
  | Except.ok _ =>
    ([NetEvent.webhookPost url payload],
     ["Sending Payload.", "Webhook Sent (" ++ signal_type ++ ")."])
  | Except.error e =>
    ([NetEvent.webhookPost url payload],
     ["Sending Payload.", "Failed to send webhook: " ++ e])

/-- The whole external context of one run: the clock, the API/webhook
outcomes, the two webhook URLs from the environment variables, and the
timestamp string the payload would carry. -/
structure Env where
  time : WorldTime
  provider : Provider
  buyUrl : String
  sellUrl : String
  timestamp : String

/-- `run_strategy` from `src/main.py`: returns early when the market is
closed; fetches the data, catching any error at this top level; then runs
the buy logic (`price >= sma200*1.04 and price <= prev_close*0.99`) or
the sell logic (`price < sma200*0.97`) according to the mode, calling
`trigger_webhook` on a trigger.  Result: network trace and printed lines. -/
def run_strategy (mode : String) (env : Env) : List NetEvent × List String :=
  match is_market_open env.time with
  | (false, pr) => ([], pr)
  | (true, pr) =>
    let pr1 := pr ++ ["--- Running " ++ mode ++ " Logic for " ++ SYMBOL ++ " ---"]
    match get_market_data env.provider with
    | (net, Except.error e) => (net, pr1 ++ ["Error fetching data: " ++ e])
    | (net, Except.ok (price, open_price, prev_close, sma200)) =>
      let pr2 := pr1 ++ ["Price | Open | Prev Close | SMA200"]
      if mode = "buy" then
        let threshold_sma := sma200 * (104 / 100 : ℚ)
        let threshold_dip := prev_close * (99 / 100 : ℚ)
        let pr3 := pr2 ++ ["Buy Criteria: Price >= SMA+4% AND Price <= Close-1%"]
        if price ≥ threshold_sma ∧ price ≤ threshold_dip then
          let w := trigger_webhook env.provider.postResult env.buyUrl "BUY"
            price sma200 env.timestamp open_price
          (net ++ w.1, pr3 ++ [">>> BUY SIGNAL TRIGGERED <<<"] ++ w.2)
        else
          (net, pr3 ++ ["No Buy Signal."])
      else if mode = "sell" then
        let threshold_sell := sma200 * (97 / 100 : ℚ)
        let pr3 := pr2 ++ ["Sell Criteria: Price < SMA-3%"]
        if price < threshold_sell then
          let w := trigger_webhook env.provider.postResult env.sellUrl "SELL"
            price sma200 env.timestamp none
          (net ++ w.1, pr3 ++ [">>> SELL SIGNAL TRIGGERED <<<"] ++ w.2)
        else
          (net, pr3 ++ ["No Sell Signal."])
      else
        (net, pr2)

/-- The webhook POSTs occurring in a trace, with their target URLs. -/
def postsOf (tr : List NetEvent) : List (String × Payload) :=
  tr.filterMap fun ev =>
    match ev with
    | NetEvent.webhookPost u p => some (u, p)
    | _ => none

/-! Concrete fixtures used to evaluate the theorems on explicit inputs. -/

/-- A webhook endpoint that accepts every POST. -/
def okPost : String → Payload → Except String Unit := fun _ _ => Except.ok ()

/-- A webhook endpoint that rejects every POST with a 500. -/
def failPost : String → Payload → Except String Unit :=
  fun _ _ => Except.error "500 Server Error"

/-- A quote that satisfies the buy rule against an SMA of 100
(`105 ≥ 104` and `105 ≤ 108.9`), with an open price of 0. -/
def buyQuote : Quote := { last := 105, openPrice := some 0, prevclose := 110 }

/-- A quote that satisfies the sell rule against an SMA of 100 (`90 < 97`). -/
def sellQuote : Quote := { last := 90, openPrice := none, prevclose := 110 }

/-- A quote satisfying the buy rule with a truthy (nonzero) open price. -/
def buyQuoteOpen : Quote := { last := 105, openPrice := some 106, prevclose := 110 }

/-- A provider answering both GETs, with a single historical close of 100. -/
def buyProvider : Provider :=
  { quoteResult := Except.ok buyQuote
    historyResult := Except.ok [100]
    postResult := okPost }

/-- Like `buyProvider` but for the sell-rule quote. -/
def sellProvider : Provider :=
  { quoteResult := Except.ok sellQuote
    historyResult := Except.ok [100]
    postResult := okPost }

/-- A provider whose quote GET fails. -/
def errProvider : Provider :=
  { quoteResult := Except.error "HTTPError 401"
    historyResult := Except.ok [100]
    postResult := okPost }

/-- Monday 10:00:00 ET — inside the trading window. -/
def mondayTenAM : WorldTime := ⟨0, 10, 0, 0, 0⟩

/-- Saturday 10:00:00 ET — a weekend. -/
def saturdayTenAM : WorldTime := ⟨5, 10, 0, 0, 0⟩

/-- Monday 08:00:00 ET — a weekday before the open. -/
def mondayEightAM : WorldTime := ⟨0, 8, 0, 0, 0⟩

/-- An environment in the trading window whose provider triggers the buy rule. -/
def buyEnv : Env :=
  { time := mondayTenAM
    provider := buyProvider
    buyUrl := "https://oa.example/buy"
    sellUrl := "https://oa.example/sell"
    timestamp := "2026-10-12T10:00:00-04:00" }

/-- `buyEnv` with the sell-rule provider. -/
def sellEnv : Env := { buyEnv with provider := sellProvider }

/-- `buyEnv` moved to a Saturday. -/
def weekendEnv : Env := { buyEnv with time := saturdayTenAM }

/-- `buyEnv` moved to before the open on a weekday. -/
def preOpenEnv : Env := { buyEnv with time := mondayEightAM }

/-- `buyEnv` with the failing provider. -/
def errEnv : Env := { buyEnv with provider := errProvider }

/-- `buyEnv` with a truthy open price in the quote. -/
def buyOpenEnv : Env :=
  { buyEnv with provider := { buyProvider with quoteResult := Except.ok buyQuoteOpen } }

/-! ### Helper lemmas -/

/-- `trigger_webhook` performs exactly one POST, of the built payload. -/
theorem trigger_webhook_fst (post : String → Payload → Except String Unit)
    (url signal_type : String) (price sma : ℚ) (ts : String) (open_p : Option ℚ) :
    (trigger_webhook post url signal_type price sma ts open_p).1 =
      [NetEvent.webhookPost url (mkPayload signal_type price sma ts open_p)] := by
  cases h : post url (mkPayload signal_type price sma ts open_p) <;>
    simp [trigger_webhook, h]

/-- A closed market makes `run_strategy` return at once with only the
closed-market message. -/
theorem run_strategy_closed (mode : String) (env : Env)
    (h : (is_market_open env.time).1 = false) :
    run_strategy mode env = ([], (is_market_open env.time).2) := by
  rcases hm : is_market_open env.time with ⟨b, pr⟩
  rw [hm] at h
  simp at h
  subst h
  simp [run_strategy, hm]

/-- Outside the window (a weekend, or a weekday time before the open or
after the close) `is_market_open` returns `false`. -/
theorem is_market_open_false_of_outside (t : WorldTime)
    (h : 4 < t.weekday ∨ nowMicros t < marketOpenMicros ∨ marketCloseMicros < nowMicros t) :
    (is_market_open t).1 = false := by
  unfold is_market_open
  split_ifs with h1 h2
  · rfl
  · exfalso
    rcases h with h | h | h
    · omega
    · omega
    · omega
  · rfl

/-! ### Claim theorems -/

/-- C10: the trading-window check returns true iff the US/Eastern weekday is
Monday-Friday (0-4) and the time of day lies between 09:30:00 and 16:00:00
with both boundaries included; in particular exactly 09:30:00 and exactly
16:00:00 on a weekday are inside, and weekend times are outside regardless
of hour. -/
theorem market_open_window_iff :
    (∀ t : WorldTime, (is_market_open t).1 = true ↔
        (t.weekday ≤ 4 ∧ timeMicros 9 30 0 0 ≤ nowMicros t ∧
          nowMicros t ≤ timeMicros 16 0 0 0))
    ∧ (is_market_open ⟨0, 9, 30, 0, 0⟩).1 = true
    ∧ (is_market_open ⟨4, 16, 0, 0, 0⟩).1 = true
    ∧ (is_market_open ⟨5, 12, 0, 0, 0⟩).1 = false
    ∧ (is_market_open ⟨6, 9, 45, 0, 0⟩).1 = false := by
  refine ⟨fun t => ?_, by decide, by decide, by decide, by decide⟩
  unfold is_market_open marketOpenMicros marketCloseMicros
  split_ifs with h1 h2
  · simp
    omega
  · simp
    exact ⟨by omega, h2.1, h2.2⟩
  · simp
    intro hw
    omega

/-- C4: at a time outside the trading window (weekend, or weekday time
outside 09:30-16:00 ET) the run performs no network calls at all: the
network trace of `run_strategy` is empty. -/
theorem no_network_outside_window (mode : String) (env : Env)
    (h : 4 < env.time.weekday ∨ nowMicros env.time < marketOpenMicros ∨
      marketCloseMicros < nowMicros env.time) :
    (run_strategy mode env).1 = [] := by
  rw [run_strategy_closed mode env (is_market_open_false_of_outside env.time h)]

/-- Witness for C4: on a Saturday the buy run performs no network calls. -/
theorem no_network_outside_window_witness :
    (4 < weekendEnv.time.weekday ∨ nowMicros weekendEnv.time < marketOpenMicros ∨
      marketCloseMicros < nowMicros weekendEnv.time)
    ∧ (run_strategy "buy" weekendEnv).1 = [] :=
  ⟨Or.inl (by decide), no_network_outside_window "buy" weekendEnv (Or.inl (by decide))⟩

/-- C8 counterexample: at a Saturday invocation — outside the trading
window — the program does produce output (the weekend closed-market
message), refuting "exits silently, producing no output". -/
theorem closed_run_silent_counterexample :
    4 < weekendEnv.time.weekday ∧
      (run_strategy "buy" weekendEnv).2 = ["Market Closed (Weekend)."] ∧
      (run_strategy "buy" weekendEnv).2 ≠ [] := by
  refine ⟨by decide, ?_, ?_⟩ <;> decide

/-- C8 amended: outside the trading window the run exits early — no
network calls, no strategy output — but it does print one closed-market
line ("Weekend" or "Outside Hours"). -/
theorem closed_run_exits_with_message (mode : String) (env : Env)
    (h : 4 < env.time.weekday ∨ nowMicros env.time < marketOpenMicros ∨
      marketCloseMicros < nowMicros env.time) :
    (run_strategy mode env).1 = [] ∧
      ((run_strategy mode env).2 = ["Market Closed (Weekend)."] ∨
        (run_strategy mode env).2 = ["Market Closed (Outside Hours)."]) := by
  have hf := is_market_open_false_of_outside env.time h
  rw [run_strategy_closed mode env hf]
  refine ⟨rfl, ?_⟩
  unfold is_market_open at hf ⊢
  split_ifs with h1 h2
  · exact Or.inl rfl
  · rw [if_neg h1, if_pos h2] at hf
    simp at hf
  · exact Or.inr rfl

/-- Witness for C8 (amended): a weekday pre-open run prints the
outside-hours message and nothing else. -/
theorem closed_run_exits_with_message_witness :
    (4 < preOpenEnv.time.weekday ∨ nowMicros preOpenEnv.time < marketOpenMicros ∨
      marketCloseMicros < nowMicros preOpenEnv.time)
    ∧ ((run_strategy "sell" preOpenEnv).1 = [] ∧
      ((run_strategy "sell" preOpenEnv).2 = ["Market Closed (Weekend)."] ∨
        (run_strategy "sell" preOpenEnv).2 = ["Market Closed (Outside Hours)."])) :=
  ⟨Or.inr (Or.inl (by decide)),
    closed_run_exits_with_message "sell" preOpenEnv (Or.inr (Or.inl (by decide)))⟩

/-- C1: in buy mode, with the market open and both fetches succeeding, a
webhook POST occurs iff the last price is ≥ SMA200·1.04 and ≤ previous
close·0.99; and when it fires, exactly the BUY payload is POSTed to the
buy webhook URL. -/
theorem buy_signal_iff (env : Env) (q : Quote) (closes : List ℚ)
    (hq : env.provider.quoteResult = Except.ok q)
    (hh : env.provider.historyResult = Except.ok closes)
    (hopen : (is_market_open env.time).1 = true) :
    (postsOf (run_strategy "buy" env).1 ≠ [] ↔
      (q.last ≥ sma200Of closes * (104 / 100 : ℚ) ∧
        q.last ≤ q.prevclose * (99 / 100 : ℚ)))
    ∧ ((q.last ≥ sma200Of closes * (104 / 100 : ℚ) ∧
        q.last ≤ q.prevclose * (99 / 100 : ℚ)) →
      postsOf (run_strategy "buy" env).1 =
        [(env.buyUrl, mkPayload "BUY" q.last (sma200Of closes) env.timestamp q.openPrice)]) := by
  rcases hm : is_market_open env.time with ⟨b, pr⟩
  rw [hm] at hopen
  simp at hopen
  subst hopen
  by_cases hc : q.last ≥ sma200Of closes * (104 / 100 : ℚ) ∧
      q.last ≤ q.prevclose * (99 / 100 : ℚ)
  · simp [run_strategy, hm, get_market_data, hq, hh, hc, trigger_webhook_fst, postsOf]
  · simp [run_strategy, hm, get_market_data, hq, hh, hc, postsOf]

/-- Witness for C1: a concrete open-market run in which the buy condition
holds (105 ≥ 104 and 105 ≤ 108.9 against SMA 100, previous close 110) and
the BUY payload goes to the buy URL. -/
theorem buy_signal_iff_witness :
    buyEnv.provider.quoteResult = Except.ok buyQuote
    ∧ buyEnv.provider.historyResult = Except.ok [(100 : ℚ)]
    ∧ (is_market_open buyEnv.time).1 = true
    ∧ ((postsOf (run_strategy "buy" buyEnv).1 ≠ [] ↔
        (buyQuote.last ≥ sma200Of [(100 : ℚ)] * (104 / 100 : ℚ) ∧
          buyQuote.last ≤ buyQuote.prevclose * (99 / 100 : ℚ)))
      ∧ ((buyQuote.last ≥ sma200Of [(100 : ℚ)] * (104 / 100 : ℚ) ∧
          buyQuote.last ≤ buyQuote.prevclose * (99 / 100 : ℚ)) →
        postsOf (run_strategy "buy" buyEnv).1 =
          [(buyEnv.buyUrl,
            mkPayload "BUY" buyQuote.last (sma200Of [(100 : ℚ)]) buyEnv.timestamp
              buyQuote.openPrice)])) :=
  ⟨rfl, rfl, by decide, buy_signal_iff buyEnv buyQuote [(100 : ℚ)] rfl rfl (by decide)⟩

/-- C2: in sell mode, with the market open and both fetches succeeding, a
webhook POST occurs iff the last price is strictly below SMA200·0.97; and
when it fires, exactly the SELL payload is POSTed to the sell webhook URL. -/
theorem sell_signal_iff (env : Env) (q : Quote) (closes : List ℚ)
    (hq : env.provider.quoteResult = Except.ok q)
    (hh : env.provider.historyResult = Except.ok closes)
    (hopen : (is_market_open env.time).1 = true) :
    (postsOf (run_strategy "sell" env).1 ≠ [] ↔
      q.last < sma200Of closes * (97 / 100 : ℚ))
    ∧ (q.last < sma200Of closes * (97 / 100 : ℚ) →
      postsOf (run_strategy "sell" env).1 =
        [(env.sellUrl, mkPayload "SELL" q.last (sma200Of closes) env.timestamp none)]) := by
  rcases hm : is_market_open env.time with ⟨b, pr⟩
  rw [hm] at hopen
  simp at hopen
  subst hopen
  by_cases hc : q.last < sma200Of closes * (97 / 100 : ℚ)
  · simp [run_strategy, hm, get_market_data, hq, hh, hc, trigger_webhook_fst, postsOf]
  · simp [run_strategy, hm, get_market_data, hq, hh, hc, postsOf]

/-- Witness for C2: a concrete open-market run in which the sell condition
holds (90 < 97 against SMA 100) and the SELL payload goes to the sell URL. -/
theorem sell_signal_iff_witness :
    sellEnv.provider.quoteResult = Except.ok sellQuote
    ∧ sellEnv.provider.historyResult = Except.ok [(100 : ℚ)]
    ∧ (is_market_open sellEnv.time).1 = true
    ∧ ((postsOf (run_strategy "sell" sellEnv).1 ≠ [] ↔
        sellQuote.last < sma200Of [(100 : ℚ)] * (97 / 100 : ℚ))
      ∧ (sellQuote.last < sma200Of [(100 : ℚ)] * (97 / 100 : ℚ) →
        postsOf (run_strategy "sell" sellEnv).1 =
          [(sellEnv.sellUrl,
            mkPayload "SELL" sellQuote.last (sma200Of [(100 : ℚ)]) sellEnv.timestamp
              none)])) :=
  ⟨rfl, rfl, by decide, sell_signal_iff sellEnv sellQuote [(100 : ℚ)] rfl rfl (by decide)⟩

/-- C3: when the provider returns at least 200 daily closes in ascending
chronological order, the computed SMA200 is the arithmetic mean of the
most recent 200 closes: the sum of the last 200 closes divided by 200
(and those most recent closes are exactly 200 in number). -/
theorem sma200_eq_mean_recent (closes : List ℚ) (h : 200 ≤ closes.length) :
    sma200Of closes = (closes.reverse.take 200).sum / 200
    ∧ (closes.reverse.take 200).length = 200 := by
  have ht : pandasTail 200 closes = List.rtake closes 200 := rfl
  have hlen : (pandasTail 200 closes).length = 200 := by
    simp only [pandasTail, List.length_drop]
    omega
  have hsum : (pandasTail 200 closes).sum = (closes.reverse.take 200).sum := by
    rw [ht, List.rtake_eq_reverse_take_reverse, List.sum_reverse]
  constructor
  · rw [sma200Of, pandasMean, hlen, hsum]
    norm_num
  · simp only [List.length_take, List.length_reverse]
    omega

/-- Witness for C3: a concrete 200-entry history on which the SMA equals
the mean of the most recent 200 closes. -/
theorem sma200_eq_mean_recent_witness :
    200 ≤ (List.replicate 200 (1 : ℚ)).length
    ∧ (sma200Of (List.replicate 200 (1 : ℚ)) =
        ((List.replicate 200 (1 : ℚ)).reverse.take 200).sum / 200
      ∧ ((List.replicate 200 (1 : ℚ)).reverse.take 200).length = 200) :=
  ⟨by rw [List.length_replicate], sma200_eq_mean_recent (List.replicate 200 (1 : ℚ))
    (by rw [List.length_replicate])⟩

/-- `get_market_data` performs GETs only: its trace contains no webhook POST. -/
theorem get_market_data_no_posts (p : Provider) :
    postsOf (get_market_data p).1 = [] := by
  cases hq : p.quoteResult with
  | error e => simp [get_market_data, hq, postsOf]
  | ok q =>
    cases hh : p.historyResult with
    | error e2 => simp [get_market_data, hq, hh, postsOf]
    | ok c => simp [get_market_data, hq, hh, postsOf]

/-- C5: when fetching/parsing the quote or history errors out during an
open-market run, the error is caught at the top of `run_strategy`: the
run performs no webhook POST, and the error line is logged.  (That the
function returns normally is inherent: `run_strategy` is total and this
theorem describes its return value.) -/
theorem fetch_error_caught (mode : String) (env : Env) (e : String)
    (hopen : (is_market_open env.time).1 = true)
    (herr : (get_market_data env.provider).2 = Except.error e) :
    postsOf (run_strategy mode env).1 = []
    ∧ ("Error fetching data: " ++ e) ∈ (run_strategy mode env).2 := by
  rcases hm : is_market_open env.time with ⟨b, pr⟩
  rw [hm] at hopen
  simp at hopen
  subst hopen
  rcases hg : get_market_data env.provider with ⟨net, r⟩
  rw [hg] at herr
  simp at herr
  subst herr
  have hnet : postsOf net = [] := by
    have := get_market_data_no_posts env.provider
    rw [hg] at this
    exact this
  simp [run_strategy, hm, hg, hnet]

/-- Witness for C5: with a failing quote GET on an open-market Monday, the
buy run posts nothing and logs the fetch error. -/
theorem fetch_error_caught_witness :
    (is_market_open errEnv.time).1 = true
    ∧ (get_market_data errEnv.provider).2 = Except.error "HTTPError 401"
    ∧ (postsOf (run_strategy "buy" errEnv).1 = []
      ∧ ("Error fetching data: " ++ "HTTPError 401") ∈ (run_strategy "buy" errEnv).2) :=
  ⟨by decide, rfl, fetch_error_caught "buy" errEnv "HTTPError 401" (by decide) rfl⟩

/-- C7: a failing webhook POST is caught inside `trigger_webhook`: the
function returns normally with the failure line logged (so the exception
does not propagate out). -/
theorem webhook_failure_caught (post : String → Payload → Except String Unit)
    (url signal_type : String) (price sma : ℚ) (ts : String) (open_p : Option ℚ)
    (e : String)
    (h : post url (mkPayload signal_type price sma ts open_p) = Except.error e) :
    (trigger_webhook post url signal_type price sma ts open_p).2 =
      ["Sending Payload.", "Failed to send webhook: " ++ e] := by
  simp [trigger_webhook, h]

/-- Witness for C7: an endpoint answering 500 makes `trigger_webhook`
return with the failure line. -/
theorem webhook_failure_caught_witness :
    failPost "https://oa.example/buy"
        (mkPayload "BUY" 105 100 "2026-10-12T10:00:00-04:00" (some 0)) =
      Except.error "500 Server Error"
    ∧ (trigger_webhook failPost "https://oa.example/buy" "BUY" 105 100
        "2026-10-12T10:00:00-04:00" (some 0)).2 =
      ["Sending Payload.", "Failed to send webhook: " ++ "500 Server Error"] :=
  ⟨rfl, webhook_failure_caught failPost "https://oa.example/buy" "BUY" 105 100
    "2026-10-12T10:00:00-04:00" (some 0) "500 Server Error" rfl⟩

/-- C6: in every run at most one webhook POST occurs, and any payload
POSTed carries the script's ticker and the run timestamp and is routed by
signal type: a BUY payload goes to the buy webhook URL and a SELL payload
to the sell webhook URL.  (The `Payload` structure itself fixes the field
set: ticker, signal, price, sma200, timestamp, optional open_price.) -/
theorem one_post_per_run (mode : String) (env : Env) :
    (postsOf (run_strategy mode env).1).length ≤ 1
    ∧ ∀ u p, (u, p) ∈ postsOf (run_strategy mode env).1 →
      p.ticker = SYMBOL ∧ p.timestamp = env.timestamp ∧
        ((p.signal = "BUY" ∧ u = env.buyUrl) ∨ (p.signal = "SELL" ∧ u = env.sellUrl)) := by
  rcases hm : is_market_open env.time with ⟨b, pr⟩
  cases b with
  | false => simp [run_strategy, hm, postsOf]
  | true =>
    cases hq : env.provider.quoteResult with
    | error e => simp [run_strategy, hm, get_market_data, hq, postsOf]
    | ok q =>
      cases hh : env.provider.historyResult with
      | error e => simp [run_strategy, hm, get_market_data, hq, hh, postsOf]
      | ok closes =>
        by_cases hb : mode = "buy"
        · subst hb
          by_cases hc : q.last ≥ sma200Of closes * (104 / 100 : ℚ) ∧
              q.last ≤ q.prevclose * (99 / 100 : ℚ)
          · simp [run_strategy, hm, get_market_data, hq, hh, hc,
              trigger_webhook_fst, postsOf, mkPayload]
          · simp [run_strategy, hm, get_market_data, hq, hh, hc, postsOf]
        · by_cases hs : mode = "sell"
          · subst hs
            by_cases hc : q.last < sma200Of closes * (97 / 100 : ℚ)
            · simp [run_strategy, hm, get_market_data, hq, hh, hb, hc,
                trigger_webhook_fst, postsOf, mkPayload]
            · simp [run_strategy, hm, get_market_data, hq, hh, hb, hc, postsOf]
          · simp [run_strategy, hm, get_market_data, hq, hh, hb, hs, postsOf]

/-- C9: when the buy signal fires, the POSTed payload carries the
`open_price` key iff the fetched open price is truthy (a nonzero value);
in particular an open price of 0 or None leaves the key out of the
payload even though the buy signal fired. -/
theorem buy_open_price_truthiness (env : Env) (q : Quote) (closes : List ℚ)
    (hq : env.provider.quoteResult = Except.ok q)
    (hh : env.provider.historyResult = Except.ok closes)
    (hopen : (is_market_open env.time).1 = true)
    (hc : q.last ≥ sma200Of closes * (104 / 100 : ℚ) ∧
      q.last ≤ q.prevclose * (99 / 100 : ℚ)) :
    ∃ p, postsOf (run_strategy "buy" env).1 = [(env.buyUrl, p)]
      ∧ (p.open_price ≠ none ↔ ∃ x, q.openPrice = some x ∧ x ≠ 0)
      ∧ (∀ x, q.openPrice = some x → x ≠ 0 → p.open_price = some x)
      ∧ ((q.openPrice = some 0 ∨ q.openPrice = none) → p.open_price = none) := by
  rcases hm : is_market_open env.time with ⟨b, pr⟩
  rw [hm] at hopen
  simp at hopen
  subst hopen
  refine ⟨mkPayload "BUY" q.last (sma200Of closes) env.timestamp q.openPrice,
    ?_, ?_, ?_, ?_⟩
  · simp [run_strategy, hm, get_market_data, hq, hh, hc, trigger_webhook_fst, postsOf]
  · cases ho : q.openPrice with
    | none => simp [mkPayload, pyTruthy]
    | some x =>
      by_cases hx : x = 0
      · subst hx
        simp [mkPayload, pyTruthy]
      · simp [mkPayload, pyTruthy, hx]
  · intro x hox hx
    rw [hox]
    simp [mkPayload, pyTruthy, hx]
  · intro hzero
    rcases hzero with hz | hz <;> simp [mkPayload, pyTruthy, hz]

/-- Witness for C9: a concrete firing buy run whose quote has open price 0
and whose POSTed payload omits `open_price`. -/
theorem buy_open_price_truthiness_witness :
    buyEnv.provider.quoteResult = Except.ok buyQuote
    ∧ buyEnv.provider.historyResult = Except.ok [(100 : ℚ)]
    ∧ (is_market_open buyEnv.time).1 = true
    ∧ (buyQuote.last ≥ sma200Of [(100 : ℚ)] * (104 / 100 : ℚ) ∧
        buyQuote.last ≤ buyQuote.prevclose * (99 / 100 : ℚ))
    ∧ (∃ p, postsOf (run_strategy "buy" buyEnv).1 = [(buyEnv.buyUrl, p)]
        ∧ (p.open_price ≠ none ↔ ∃ x, buyQuote.openPrice = some x ∧ x ≠ 0)
        ∧ (∀ x, buyQuote.openPrice = some x → x ≠ 0 → p.open_price = some x)
        ∧ ((buyQuote.openPrice = some 0 ∨ buyQuote.openPrice = none) →
            p.open_price = none)) :=
  ⟨rfl, rfl, by decide,
    by norm_num [buyQuote, sma200Of, pandasMean, pandasTail],
    buy_open_price_truthiness buyEnv buyQuote [(100 : ℚ)] rfl rfl (by decide)
      (by norm_num [buyQuote, sma200Of, pandasMean, pandasTail])⟩

end QQQMomentum
